import Mathlib

/-!
Shallow embedding of the Telegram weather bot (`src/bot.py`) and proofs of
the specification claims.

External collaborators (the geocoding provider, the weather provider and the
message transport) are modelled as oracle parameters; the per-user session
dictionary `user_states` and the persisted JSON file `user_data.json` are
modelled as explicit state threaded through the handlers.  Strings in the
source file appear mojibake-encoded (`üìç`, `¬∞C`); the embedding keeps the
literal characters of the file.
-/

namespace WeatherBot

/-- The `preferences` sub-dictionary of a stored profile. -/
structure Preferences where
  alert_frequency : String
  temperature_unit : String
deriving DecidableEq

/-- The default preferences written by `save_location` when it creates or
resets a user record (`bot.py` lines 178-181 and 188-191). -/
def defaultPreferences : Preferences :=
  { alert_frequency := "daily", temperature_unit := "celsius" }

/-- A JSON value stored under a user id in `user_data.json`.  The code only
ever distinguishes (a) values that are not dicts (`isinstance(..., dict)` is
false) and (b) dicts, from which it reads the keys `locations`,
`preferences` and `alerts_enabled`, each of which may be absent.  A present
`locations` key is modelled as a list of strings, which is the only shape the
code itself ever writes. -/
inductive StoredValue where
  | notDict
  | dict (locations : Option (List String)) (preferences : Option Preferences)
      (alerts_enabled : Option Bool)
deriving DecidableEq

/-- The fresh record `save_location` installs for a new or reset user
(`bot.py` lines 176-183). -/
def defaultRecord : StoredValue :=
  .dict (some []) (some defaultPreferences) (some true)

/-- The persisted store: the JSON object of `user_data.json`, a mapping from
user-id strings to stored values, modelled as an association list with
distinct keys maintained by `Store.insert`. -/
abbrev Store := List (String × StoredValue)

/-- Dictionary lookup `user_data[user_id]` / `user_id in user_data`. -/
def Store.find : Store → String → Option StoredValue
  | [], _ => none
  | (k, v) :: rest, u => if k = u then some v else Store.find rest u

/-- Dictionary assignment `user_data[user_id] = value` (replace or add). -/
def Store.insert : Store → String → StoredValue → Store
  | [], u, v => [(u, v)]
  | (k, w) :: rest, u, v =>
      if k = u then (k, v) :: rest else (k, w) :: Store.insert rest u v

/-- The `locations` list of a user's record, empty when the user is absent or
the record has no well-formed `locations` entry.  Used only to state
theorems, not by the embedded code. -/
def locationsOf (s : Store) (u : String) : List String :=
  match s.find u with
  | some (.dict (some locs) _ _) => locs
  | _ => []

/-! ### Location Resolver (`location_handler`, `bot.py` lines 55-81) -/

/-- Outcome of the call `geolocator.geocode(location)`: the call can raise
(caught by the surrounding `except`), return `None`, or return a location
with latitude and longitude, modelled as exact rationals. -/
inductive GeoResponse where
  | error
  | success (result : Option (ℚ × ℚ))
deriving DecidableEq

/-- Python's `round` to the nearest integer, ties to even. -/
def roundHalfEven (q : ℚ) : ℤ :=
  let f := ⌊q⌋
  if q - f < 1 / 2 then f
  else if q - f > 1 / 2 then f + 1
  else if f % 2 = 0 then f else f + 1

/-- Python's `round(x, 2)`: round to two decimal places. -/
def round2 (q : ℚ) : ℚ := (roundHalfEven (q * 100) : ℚ) / 100

/-- `location_handler` (`bot.py` lines 55-81) applied to the geocoder's
response for the queried text: `None` on a geocoder exception or on no
match, otherwise the latitude and longitude rounded to two decimals. -/
def location_handler (geo : GeoResponse) : Option (ℚ × ℚ) :=
  match geo with
  | .error => none
  | .success none => none
  | .success (some (lat, lon)) => some (round2 lat, round2 lon)

/-! ### Outbound messages -/

/-- One outbound transport call made by a handler: `bot.send_message` with
plain text, with `parse_mode='Markdown'`, or with an inline keyboard whose
buttons carry (label, callback_data) pairs. -/
inductive Msg where
  | text (body : String)
  | markdown (body : String)
  | withButtons (body : String) (buttons : List (String × String))
deriving DecidableEq

/-! ### Weather Fetcher (`get_weather` / `fetch_weather`, `bot.py` lines 83-131) -/

/-- One element of a forecast entry's `weather` array; the code reads only
its `description` key, with default `'Unknown'` when absent. -/
structure WeatherCondition where
  description : Option String
deriving DecidableEq

/-- One entry of the provider's `list` array.  `weather` models
`entry.get('weather', [])` (an absent key reads as `[]`); `temp` models
`entry.get('main', {}).get('temp', 'N/A')`, holding the decimal rendering of
the number when present (the value is only ever interpolated into the
outgoing f-string) and `none` when `main` or `temp` is absent. -/
structure ForecastEntry where
  weather : List WeatherCondition
  temp : Option String
deriving DecidableEq

/-- Result of `get_weather` (`bot.py` lines 83-94): `apiError` when
`requests` raised and the function returned `None`, otherwise the parsed
JSON body, of which the code reads only `weather.get('list', [])`. -/
inductive WeatherResult where
  | apiError
  | ok (list : List ForecastEntry)
deriving DecidableEq

/-- Python's `str.strip()`: remove leading and trailing whitespace. -/
def strip (s : String) : String :=
  String.mk (((s.data.dropWhile Char.isWhitespace).reverse.dropWhile
    Char.isWhitespace).reverse)

/-- Python's `str.capitalize()`: first character uppercased, the rest
lowercased (ASCII case mapping suffices for the provider's descriptions). -/
def capitalize (s : String) : String :=
  match s.data with
  | [] => ""
  | c :: cs => String.mk (c.toUpper :: cs.map Char.toLower)

/-- `fetch_weather` (`bot.py` lines 96-131), returning the list of outbound
messages it sends.  `geo` is the geocoder's response for the message text and
`wx` the weather provider's response for the resolved coordinate.  When the
resolver returns `None` the function returns with no message at all
(line 102-103).  The generic `except` branch (lines 129-131) is unreachable
in the embedding, which models no other exception source. -/
def fetch_weather (geo : GeoResponse) (wx : WeatherResult) : List Msg :=
  match location_handler geo with
  | none => []
  | some _ =>
    match wx with
    | .apiError => [.text "Sorry, I could not retrieve the weather information."]
    | .ok data =>
      match data with
      | [] => [.text "No weather data available."]
      | entry :: _ =>
        match entry.weather with
        | [] => [.text "No weather description available."]
        | info :: _ =>
          let description := info.description.getD "Unknown"
          let temp := entry.temp.getD "N/A"
          [.text "Here\x27s the weather!",
           .markdown ("*Weather:* " ++ capitalize description ++
             "\n*Temperature:* " ++ temp ++ "¬∞C")]

/-! ### Profile Store (`load_user_data` / `save_user_data` / `save_location`,
`bot.py` lines 133-211) -/

/-- One observable side effect of `save_location`, in order: the geocoder
query (with the exact string queried), the call to `load_user_data`, and the
call to `save_user_data` (with the store it writes). -/
inductive Effect where
  | geocode (query : String)
  | readStore
  | writeStore (s : Store)
deriving DecidableEq

/-- How a `save_location` call ended. -/
inductive Outcome where
  | retryPrompt
  | added
  | duplicate
  | storeError
deriving DecidableEq

/-- Result of a `save_location` call: the persisted store afterwards, the
outbound messages, the classification of the run, and the effect trace. -/
structure SaveResult where
  store : Store
  msgs : List Msg
  outcome : Outcome
  trace : List Effect
deriving DecidableEq

/-- The retry prompt sent when the location cannot be resolved
(`bot.py` lines 157-165). -/
def retryPromptMsg : Msg :=
  .withButtons "This location could not be found. Would you like to try again?"
    [("Yes", "try_again_yes"), ("No", "try_again_no")]

/-- The error message of the `except` branch (`bot.py` line 211). -/
def saveErrorMsg : Msg :=
  .text "Sorry, there was an error saving your location."

/-- `save_location` (`bot.py` lines 146-211).  `userId` is
`str(message.chat.id)`, `text` is `message.text`, `resolve` is the geocoder
oracle and `store` the current contents of `user_data.json`.

Line by line: `location = message.text.strip()`; the geocoder is consulted
on the whole message (`location_handler(message)`, i.e. on the untrimmed
`message.text`); on failure the Yes/No retry prompt is sent and the store is
neither read nor written.  Otherwise `load_user_data()` runs, a missing user
record or one that is not a dict is replaced by the default structure, and
the code evaluates `location not in user_data[user_id]["locations"]`: a dict
record without a `locations` key raises `KeyError` here, which the `except`
branch turns into the error message (store unwritten).  Otherwise the
trimmed location is appended and persisted if absent, or reported as already
saved with no write. -/
def save_location (userId text : String) (resolve : String → GeoResponse)
    (store : Store) : SaveResult :=
  let location := strip text
  match location_handler (resolve text) with
  | none =>
      { store := store, msgs := [retryPromptMsg], outcome := .retryPrompt,
        trace := [.geocode text] }
  | some _ =>
      let record :=
        match store.find userId with
        | none => defaultRecord
        | some .notDict => defaultRecord
        | some (.dict l p a) => .dict l p a
      match record with
      | .notDict =>
          -- unreachable: `record` is always a dict by construction
          { store := store, msgs := [saveErrorMsg], outcome := .storeError,
            trace := [.geocode text, .readStore] }
      | .dict none _ _ =>
          -- `user_data[user_id]["locations"]` raises KeyError
          { store := store, msgs := [saveErrorMsg], outcome := .storeError,
            trace := [.geocode text, .readStore] }
      | .dict (some locs) prefs alerts =>
          if location ∈ locs then
            { store := store,
              msgs := [.text ("Location \x27" ++ location ++
                "\x27 is already in your saved locations.")],
              outcome := .duplicate,
              trace := [.geocode text, .readStore] }
          else
            let newLocs := locs ++ [location]
            let newStore := store.insert userId (.dict (some newLocs) prefs alerts)
            let locationsList :=
              String.intercalate "\n" (newLocs.map (fun loc => "üìç " ++ loc))
            { store := newStore,
              msgs := [.text ("Location verified and saved successfully!\nYour saved locations:\n"
                ++ locationsList)],
              outcome := .added,
              trace := [.geocode text, .readStore, .writeStore newStore] }

/-! ### Session State Machine (`bot.py` lines 52-53, 213-313) -/

/-- An inbound event the bot's registered handlers react to: the `/start`
command, the callback-query buttons (matched by their exact `callback_data`
strings), or a free-text message routed through `handle_all_messages`. -/
inductive Event where
  | startCmd
  | startYes
  | startNo
  | getWeather
  | setLocation
  | weatherAlerts
  | tryAgainYes
  | tryAgainNo
  | freeText (text : String)
deriving DecidableEq

/-- The per-user mutable state touched by a handler run: this user's entry in
the global `user_states` dict (`none` = key absent = idle) and the persisted
store. -/
structure World where
  state : Option String
  store : Store
deriving DecidableEq

/-- Result of handling one inbound event for one user. -/
structure StepResult where
  world : World
  msgs : List Msg
deriving DecidableEq

/-- The "enter a location to save" prompt shared by `handle_set_location`
and `handle_try_again_yes` (`bot.py` lines 270 and 287). -/
def savePromptBody : String :=
  "Please enter the location you\x27d like to save for updates:"

/-- Dispatch of one inbound event for the user `userId`, combining the
registered handlers of `bot.py` lines 213-313.  `resolve` and `wx` are the
oracles for the external calls the run may make.  Handlers that only send
messages leave the world unchanged; `handle_get_weather`, `handle_set_location`
and `handle_try_again_yes` assign `user_states[...]`; `handle_all_messages`
routes free text on the current state and pops the state after the
awaiting-location branches (`user_states.pop(..., None)`). -/
def handle_event (userId : String) (e : Event) (resolve : String → GeoResponse)
    (wx : WeatherResult) (w : World) : StepResult :=
  match e with
  | .startCmd =>
      { world := w,
        msgs := [.withButtons "Hi there! I\x27m your personal weather assistant, here to help you stay prepared for anything Mother Nature throws your way! Would you like to start using this bot?"
          [("Yes", "start_yes"), ("No", "start_no")]] }
  | .startYes =>
      { world := w,
        msgs := [.text "Great! Let\x27s get started. üòä",
          .withButtons "What would you like to do next?"
            [("Get Weather", "get_weather"), ("Set Location", "set_location"),
             ("Weather Alerts", "weather_alerts")]] }
  | .startNo =>
      { world := w,
        msgs := [.text "Alright! If you change your mind, just type /start to begin. üòä"] }
  | .getWeather =>
      { world := { w with state := some "waiting_for_weather_location" },
        msgs := [.text "Please enter a location to get the weather:"] }
  | .setLocation =>
      { world := { w with state := some "waiting_for_save_location" },
        msgs := [.text savePromptBody] }
  | .weatherAlerts =>
      { world := w, msgs := [.text "Weather alerts feature is under development!"] }
  | .tryAgainYes =>
      { world := { w with state := some "waiting_for_save_location" },
        msgs := [.text savePromptBody] }
  | .tryAgainNo =>
      { world := w,
        msgs := [.text "Okay, the location wasn\x27t saved. If you\x27d like to try again, just type a location."] }
  | .freeText t =>
      if w.state = some "waiting_for_weather_location" then
        { world := { w with state := none }, msgs := fetch_weather (resolve t) wx }
      else if w.state = some "waiting_for_save_location" then
        let r := save_location userId t resolve w.store
        { world := { state := none, store := r.store }, msgs := r.msgs }
      else
        { world := w,
          msgs := [.text "Please use the menu options. Type /start to see available commands."] }

/-- The three session steps of the specification: the `user_states` entry is
absent (idle) or one of the two awaiting markers the code assigns. -/
def validStep (s : Option String) : Prop :=
  s = none ∨ s = some "waiting_for_weather_location" ∨
    s = some "waiting_for_save_location"

instance (s : Option String) : Decidable (validStep s) := by
  unfold validStep; infer_instance

/-! ### Interleaved `save_location` calls (`bot.py` has no lock around the
`load_user_data` / `save_user_data` cycle) -/

/-- Atomic sub-steps of two concurrent `save_location` calls, op 1 and op 2:
each op's `load_user_data()` (reading the whole file) and its
`save_user_data(...)` (overwriting the whole file with the result computed
from the snapshot it loaded).  Nothing in `bot.py` serializes these. -/
inductive Act where
  | load1
  | write1
  | load2
  | write2
deriving DecidableEq

/-- The shared file plus each op's loaded snapshot (none before its load). -/
structure ConcState where
  file : Store
  snap1 : Option Store
  snap2 : Option Store
deriving DecidableEq

/-- Runs a schedule of the four sub-steps.  `f1` and `f2` map an op's loaded
snapshot to the store it writes back (for `save_location`, the snapshot with
that op's user record updated).  A write before the matching load (an
ill-formed schedule) leaves the file unchanged. -/
def runSchedule (f1 f2 : Store → Store) : List Act → ConcState → ConcState
  | [], s => s
  | .load1 :: rest, s => runSchedule f1 f2 rest { s with snap1 := some s.file }
  | .write1 :: rest, s =>
      runSchedule f1 f2 rest
        { s with file := match s.snap1 with | some snap => f1 snap | none => s.file }
  | .load2 :: rest, s => runSchedule f1 f2 rest { s with snap2 := some s.file }
  | .write2 :: rest, s =>
      runSchedule f1 f2 rest
        { s with file := match s.snap2 with | some snap => f2 snap | none => s.file }

/-- The store transformer of one `save_location` call, as a function of the
snapshot its `load_user_data()` returned. -/
def saveWriter (userId text : String) (resolve : String → GeoResponse)
    (snapshot : Store) : Store :=
  (save_location userId text resolve snapshot).store

/-- States of the store from which `save_location` for user `u` and stripped
location `loc` reaches its append branch: the user is absent, the record is
not a dict (both reset to the default record), or the record's `locations`
list does not yet contain `loc`. -/
def freshFor (s : Store) (u loc : String) : Prop :=
  match s.find u with
  | none => True
  | some .notDict => True
  | some (.dict none _ _) => False
  | some (.dict (some locs) _ _) => loc ∉ locs

instance (s : Store) (u loc : String) : Decidable (freshFor s u loc) := by
  unfold freshFor
  cases Store.find s u with
  | none => exact inferInstanceAs (Decidable True)
  | some v =>
    cases v with
    | notDict => exact inferInstanceAs (Decidable True)
    | dict l p a =>
      cases l with
      | none => exact inferInstanceAs (Decidable False)
      | some locs => exact inferInstanceAs (Decidable (loc ∉ locs))

/-! ### Store lemmas -/

theorem Store.find_insert_self (s : Store) (u : String) (v : StoredValue) :
    (s.insert u v).find u = some v := by
  induction s with
  | nil => simp [Store.insert, Store.find]
  | cons hd tl ih =>
    obtain ⟨k, w⟩ := hd
    by_cases h : k = u <;> simp [Store.insert, Store.find, h, ih]

theorem Store.find_insert_ne (s : Store) (u u' : String) (v : StoredValue)
    (h : u' ≠ u) : (s.insert u v).find u' = s.find u' := by
  induction s with
  | nil => simp [Store.insert, Store.find, Ne.symm h]
  | cons hd tl ih =>
    obtain ⟨k, w⟩ := hd
    by_cases hk : k = u
    · subst hk
      simp [Store.insert, Store.find, Ne.symm h]
    · simp [Store.insert, Store.find, hk, ih]

/-- `save_location` for user `u` never changes another user's record. -/
theorem save_location_find_other (u u' text : String)
    (resolve : String → GeoResponse) (store : Store) (h : u' ≠ u) :
    (save_location u text resolve store).store.find u' = store.find u' := by
  unfold save_location
  cases location_handler (resolve text) with
  | none => rfl
  | some c =>
    cases hf : store.find u with
    | none =>
      simp only [hf, defaultRecord]
      split
      · rfl
      · exact Store.find_insert_ne store u u' _ h
    | some v =>
      cases v with
      | notDict =>
        simp only [hf, defaultRecord]
        split
        · rfl
        · exact Store.find_insert_ne store u u' _ h
      | dict l p a =>
        cases l with
        | none => simp [hf]
        | some locs =>
          simp only [hf]
          split
          · rfl
          · exact Store.find_insert_ne store u u' _ h

/-- Characterization of the append branch of `save_location`: when the
geocoder resolves the text and the stored record does not already hold the
stripped location, the call reports `added` and persists the record with the
stripped location appended; a previously absent user gets the default
preferences and alert flag. -/
theorem save_location_added_spec (u text : String)
    (resolve : String → GeoResponse) (store : Store) (lat lon : ℚ)
    (hres : resolve text = .success (some (lat, lon)))
    (hfresh : freshFor store u (strip text)) :
    ∃ prefs alerts,
      (save_location u text resolve store).outcome = .added ∧
      (save_location u text resolve store).store =
        store.insert u
          (.dict (some (locationsOf store u ++ [strip text])) prefs alerts) ∧
      (save_location u text resolve store).trace =
        [.geocode text, .readStore,
         .writeStore (save_location u text resolve store).store] ∧
      (store.find u = none ∨ store.find u = some .notDict →
        prefs = some defaultPreferences ∧ alerts = some true) := by
  unfold save_location
  rw [hres]
  unfold freshFor at hfresh
  cases hf : store.find u with
  | none =>
    rw [hf] at hfresh
    refine ⟨some defaultPreferences, some true, ?_⟩
    simp [location_handler, hf, defaultRecord, locationsOf]
  | some v =>
    rw [hf] at hfresh
    cases v with
    | notDict =>
      refine ⟨some defaultPreferences, some true, ?_⟩
      simp [location_handler, hf, defaultRecord, locationsOf]
    | dict l p a =>
      cases l with
      | none => exact absurd hfresh (by simp)
      | some locs =>
        refine ⟨p, a, ?_⟩
        simp [location_handler, hf, locationsOf, hfresh]

/-- Characterization of the duplicate branch of `save_location`: when the
geocoder resolves the text and the stored record already holds the stripped
location, the call reports `duplicate`, sends the already-saved message, and
performs no write. -/
theorem save_location_duplicate_spec (u text : String)
    (resolve : String → GeoResponse) (store : Store) (lat lon : ℚ)
    (locs : List String) (p : Option Preferences) (a : Option Bool)
    (hres : resolve text = .success (some (lat, lon)))
    (hf : store.find u = some (.dict (some locs) p a))
    (hin : strip text ∈ locs) :
    save_location u text resolve store =
      { store := store,
        msgs := [.text ("Location \x27" ++ strip text ++
          "\x27 is already in your saved locations.")],
        outcome := .duplicate,
        trace := [.geocode text, .readStore] } := by
  unfold save_location
  rw [hres]
  simp [location_handler, hf, hin]

theorem not_mem_locationsOf_of_freshFor (s : Store) (u loc : String)
    (h : freshFor s u loc) : loc ∉ locationsOf s u := by
  unfold freshFor at h
  unfold locationsOf
  cases hf : s.find u with
  | none => simp
  | some v =>
    rw [hf] at h
    cases v with
    | notDict => simp
    | dict l p a =>
      cases l with
      | none => exact absurd h (by simp)
      | some locs => exact h

theorem locationsOf_save_self (u text : String) (resolve : String → GeoResponse)
    (store : Store) (lat lon : ℚ)
    (hres : resolve text = .success (some (lat, lon)))
    (hfresh : freshFor store u (strip text)) :
    locationsOf (save_location u text resolve store).store u =
      locationsOf store u ++ [strip text] := by
  obtain ⟨p, a, _, hstore, _, _⟩ :=
    save_location_added_spec u text resolve store lat lon hres hfresh
  rw [hstore]
  simp [locationsOf, Store.find_insert_self]

theorem locationsOf_save_other (u u' text : String)
    (resolve : String → GeoResponse) (store : Store) (h : u' ≠ u) :
    locationsOf (save_location u text resolve store).store u' =
      locationsOf store u' := by
  unfold locationsOf
  rw [save_location_find_other u u' text resolve store h]

theorem freshFor_save_other (u u' text loc : String)
    (resolve : String → GeoResponse) (store : Store) (h : u' ≠ u)
    (hf : freshFor store u' loc) :
    freshFor (save_location u text resolve store).store u' loc := by
  unfold freshFor at hf ⊢
  rw [save_location_find_other u u' text resolve store h]
  exact hf

theorem fetch_weather_nil_iff (geo : GeoResponse) (wx : WeatherResult) :
    fetch_weather geo wx = [] ↔ location_handler geo = none := by
  unfold fetch_weather
  cases hl : location_handler geo with
  | none => simp
  | some c =>
    cases wx with
    | apiError => simp
    | ok data =>
      cases data with
      | nil => simp
      | cons e rest => cases he : e.weather <;> simp [he]

theorem save_location_msgs_ne_nil (u text : String)
    (resolve : String → GeoResponse) (store : Store) :
    (save_location u text resolve store).msgs ≠ [] := by
  unfold save_location
  cases location_handler (resolve text) with
  | none => simp
  | some c =>
    cases hf : Store.find store u with
    | none => simp [defaultRecord]
    | some v =>
      cases v with
      | notDict => simp [defaultRecord]
      | dict l p a =>
        cases l with
        | none => simp
        | some locs =>
          by_cases hmem : strip text ∈ locs <;> simp [hmem]

/-! ### Claim theorems -/

/-- C1 counterexample: with a geocoder that resolves every query, saving
`" Paris"` twice from an empty store yields `added` then `duplicate` as the
claim states, but the persisted profile contains the literal string
`" Paris"` zero times, not exactly once: the stored string is the stripped
text `"Paris"`. -/
theorem C1_counterexample :
    (save_location "1" " Paris" (fun _ => .success (some (49, 7))) []).outcome
        = .added ∧
    (save_location "1" " Paris" (fun _ => .success (some (49, 7)))
        (save_location "1" " Paris" (fun _ => .success (some (49, 7)))
          []).store).outcome = .duplicate ∧
    ¬ (locationsOf (save_location "1" " Paris"
        (fun _ => .success (some (49, 7)))
        (save_location "1" " Paris" (fun _ => .success (some (49, 7)))
          []).store).store "1").count " Paris" = 1 := by
  decide

/-- C1 (amended): for every user `u` and location string `L` that the
geocoder resolves, starting from a store whose record for `u` does not
already hold the stripped `L`, calling `save_location` twice with `L` yields
`added` then `duplicate`; the second call performs no write (its store is
unchanged and its effect trace holds no `writeStore`), and afterwards the
persisted profile for `u` contains the whitespace-stripped `L` exactly once
(`L` itself appears exactly once only when it carries no surrounding
whitespace, since the code stores `message.text.strip()`). -/
theorem C1_added_then_duplicate (u L : String) (resolve : String → GeoResponse)
    (store : Store) (lat lon : ℚ)
    (hres : resolve L = .success (some (lat, lon)))
    (hfresh : freshFor store u (strip L)) :
    (save_location u L resolve store).outcome = .added ∧
    (save_location u L resolve
      (save_location u L resolve store).store).outcome = .duplicate ∧
    (save_location u L resolve
        (save_location u L resolve store).store).store =
      (save_location u L resolve store).store ∧
    (save_location u L resolve
        (save_location u L resolve store).store).trace =
      [.geocode L, .readStore] ∧
    (locationsOf (save_location u L resolve store).store u).count (strip L)
      = 1 := by
  obtain ⟨p, a, hout, hstore, _, _⟩ :=
    save_location_added_spec u L resolve store lat lon hres hfresh
  have hfind1 : (save_location u L resolve store).store.find u =
      some (.dict (some (locationsOf store u ++ [strip L])) p a) := by
    rw [hstore]
    exact Store.find_insert_self store u _
  have hin : strip L ∈ locationsOf store u ++ [strip L] := by simp
  have hdup := save_location_duplicate_spec u L resolve
    (save_location u L resolve store).store lat lon _ p a hres hfind1 hin
  refine ⟨hout, ?_, ?_, ?_, ?_⟩
  · rw [hdup]
  · rw [hdup]
  · rw [hdup]
  · rw [locationsOf_save_self u L resolve store lat lon hres hfresh]
    have hnot := not_mem_locationsOf_of_freshFor store u (strip L) hfresh
    simp [List.count_append, List.count_eq_zero.mpr hnot]

/-- C1 witness: a concrete instantiation of the amended claim. -/
theorem C1_witness :
    (save_location "1" "Paris" (fun _ => .success (some (49, 7)))
      []).outcome = .added ∧
    (save_location "1" "Paris" (fun _ => .success (some (49, 7)))
      (save_location "1" "Paris" (fun _ => .success (some (49, 7)))
        []).store).outcome = .duplicate := by
  have h := C1_added_then_duplicate "1" "Paris"
    (fun _ => .success (some (49, 7))) [] 49 7 rfl (by decide)
  exact ⟨h.1, h.2.1⟩

/-- C2 counterexample: the stored record for user `"7"` is `{}` — a dict of
the wrong shape (no `locations`, `preferences` or `alerts_enabled`).  The
claim says it is discarded and recreated with defaults and that the
operation never aborts; in fact `save_location` leaves the malformed record
in place and aborts with the generic error message
(`user_data[user_id]["locations"]` raises `KeyError`). -/
theorem C2_counterexample :
    (save_location "7" "Paris" (fun _ => .success (some (49, 7)))
      [("7", .dict none none none)]).outcome = .storeError ∧
    (save_location "7" "Paris" (fun _ => .success (some (49, 7)))
        [("7", .dict none none none)]).store =
      [("7", .dict none none none)] ∧
    (save_location "7" "Paris" (fun _ => .success (some (49, 7)))
      [("7", .dict none none none)]).msgs = [saveErrorMsg] := by
  decide

/-- C2 (amended): the structural validation of `save_location` is only
`isinstance(..., dict)`: a stored record that is not a dict is discarded and
recreated with the default profile before proceeding, but a dict-shaped
record that lacks the `locations` key is not repaired — the operation aborts
with the error message and leaves the store unchanged. -/
theorem C2_reset_only_for_nondict (u text : String)
    (resolve : String → GeoResponse) (store : Store) (lat lon : ℚ)
    (hres : resolve text = .success (some (lat, lon))) :
    (store.find u = some .notDict →
      (save_location u text resolve store).outcome = .added ∧
      (save_location u text resolve store).store.find u =
        some (.dict (some [strip text]) (some defaultPreferences)
          (some true))) ∧
    (∀ p a, store.find u = some (.dict none p a) →
      (save_location u text resolve store).outcome = .storeError ∧
      (save_location u text resolve store).store = store ∧
      (save_location u text resolve store).msgs = [saveErrorMsg]) := by
  constructor
  · intro hf
    have hfresh : freshFor store u (strip text) := by
      unfold freshFor; rw [hf]; trivial
    obtain ⟨p, a, hout, hstore, _, hdef⟩ :=
      save_location_added_spec u text resolve store lat lon hres hfresh
    obtain ⟨hp, ha⟩ := hdef (Or.inr hf)
    subst hp; subst ha
    refine ⟨hout, ?_⟩
    rw [hstore, Store.find_insert_self]
    have hloc : locationsOf store u = [] := by
      unfold locationsOf; rw [hf]
    rw [hloc]
    rfl
  · intro p a hf
    unfold save_location
    rw [hres]
    simp [location_handler, hf]

/-- C2 witness: a concrete instantiation of the amended claim, on a store
whose record for user `"7"` is not a dict. -/
theorem C2_witness :
    (save_location "7" "Paris" (fun _ => .success (some (49, 7)))
      [("7", .notDict)]).outcome = .added ∧
    (save_location "7" "Paris" (fun _ => .success (some (49, 7)))
        [("7", .notDict)]).store.find "7" =
      some (.dict (some [strip "Paris"]) (some defaultPreferences)
        (some true)) := by
  exact (C2_reset_only_for_nondict "7" "Paris"
    (fun _ => .success (some (49, 7))) [("7", .notDict)] 49 7 rfl).1 rfl

/-- C5: for a user with no stored record, the first resolved `save_location`
call reports `added` and persists a profile whose preferences are exactly
`alert_frequency = "daily"`, `temperature_unit = "celsius"`, whose
`alerts_enabled` flag is `true`, and whose locations are exactly the one
stripped location — i.e. the defaults were installed before the membership
check and append. -/
theorem C5_first_save_defaults (u text : String)
    (resolve : String → GeoResponse) (store : Store) (lat lon : ℚ)
    (hres : resolve text = .success (some (lat, lon)))
    (hfind : store.find u = none) :
    (save_location u text resolve store).outcome = .added ∧
    (save_location u text resolve store).store.find u =
      some (.dict (some [strip text])
        (some { alert_frequency := "daily", temperature_unit := "celsius" })
        (some true)) := by
  have hfresh : freshFor store u (strip text) := by
    unfold freshFor; rw [hfind]; trivial
  obtain ⟨p, a, hout, hstore, _, hdef⟩ :=
    save_location_added_spec u text resolve store lat lon hres hfresh
  obtain ⟨hp, ha⟩ := hdef (Or.inl hfind)
  subst hp; subst ha
  refine ⟨hout, ?_⟩
  rw [hstore, Store.find_insert_self]
  have hloc : locationsOf store u = [] := by
    unfold locationsOf; rw [hfind]
  rw [hloc]
  rfl

/-- C5 witness: a concrete instantiation. -/
theorem C5_witness :
    (save_location "42" " New York " (fun _ => .success (some (49, 7)))
      []).outcome = .added ∧
    (save_location "42" " New York " (fun _ => .success (some (49, 7)))
        []).store.find "42" =
      some (.dict (some [strip " New York "])
        (some { alert_frequency := "daily", temperature_unit := "celsius" })
        (some true)) :=
  C5_first_save_defaults "42" " New York "
    (fun _ => .success (some (49, 7))) [] 49 7 rfl rfl

/-- C6: the resolver either returns the provider's coordinate with latitude
and longitude each rounded to two decimal places (when the provider returns
a match) or returns `none`; the provider-error case and the no-match case
yield the same `none` and are indistinguishable to the caller. -/
theorem C6_resolver_cases :
    (∀ lat lon : ℚ, location_handler (.success (some (lat, lon))) =
      some (round2 lat, round2 lon)) ∧
    location_handler (.success none) = none ∧
    location_handler .error = none ∧
    location_handler .error = location_handler (.success none) ∧
    (∀ geo : GeoResponse, location_handler geo = none ∨
      ∃ lat lon : ℚ,
        geo = .success (some (lat, lon)) ∧
        location_handler geo = some (round2 lat, round2 lon)) := by
  refine ⟨fun lat lon => rfl, rfl, rfl, rfl, fun geo => ?_⟩
  cases geo with
  | error => exact Or.inl rfl
  | success r =>
    cases r with
    | none => exact Or.inl rfl
    | some c =>
      obtain ⟨lat, lon⟩ := c
      exact Or.inr ⟨lat, lon, rfl, rfl⟩

/-- C7: once the location resolves, `fetch_weather` reads only the first
forecast entry and distinguishes its outcomes observably: an empty forecast
list yields the no-data message, a first entry with an empty (or absent)
`weather` list yields the distinct no-description message, and a missing
temperature is not a failure — the summary is sent with the literal
placeholder `"N/A"`; a successful summary carries the description
capitalized. -/
theorem C7_first_entry_cases (geo : GeoResponse) (c : ℚ × ℚ)
    (hres : location_handler geo = some c) :
    fetch_weather geo (.ok []) = [.text "No weather data available."] ∧
    (∀ (e : ForecastEntry) (rest : List ForecastEntry), e.weather = [] →
      fetch_weather geo (.ok (e :: rest)) =
        [.text "No weather description available."]) ∧
    (∀ (e : ForecastEntry) (rest : List ForecastEntry)
      (info : WeatherCondition) (tl : List WeatherCondition),
      e.weather = info :: tl →
      fetch_weather geo (.ok (e :: rest)) =
        [.text "Here\x27s the weather!",
         .markdown ("*Weather:* " ++
           capitalize (info.description.getD "Unknown") ++
           "\n*Temperature:* " ++ e.temp.getD "N/A" ++ "¬∞C")]) ∧
    (∀ (e : ForecastEntry) (rest : List ForecastEntry)
      (info : WeatherCondition) (tl : List WeatherCondition),
      e.weather = info :: tl → e.temp = none →
      fetch_weather geo (.ok (e :: rest)) =
        [.text "Here\x27s the weather!",
         .markdown ("*Weather:* " ++
           capitalize (info.description.getD "Unknown") ++
           "\n*Temperature:* N/A¬∞C")]) ∧
    (∀ (e : ForecastEntry) (rest rest' : List ForecastEntry),
      fetch_weather geo (.ok (e :: rest)) =
        fetch_weather geo (.ok (e :: rest'))) ∧
    Msg.text "No weather data available." ≠
      Msg.text "No weather description available." := by
  refine ⟨?_, ?_, ?_, ?_, ?_, by decide⟩
  · simp [fetch_weather, hres]
  · intro e rest he
    simp [fetch_weather, hres, he]
  · intro e rest info tl he
    simp [fetch_weather, hres, he]
  · intro e rest info tl he ht
    have hs : ("\n*Temperature:* " ++ ("N/A" ++ "¬∞C") : String) =
        "\n*Temperature:* N/A¬∞C" := by decide
    simp [fetch_weather, hres, he, ht, String.append_assoc, hs]
  · intro e rest rest'
    simp [fetch_weather, hres]

/-- C7 witness: the README scenario — description `"clear sky"` and
temperature `"21.5"` produce the capitalized summary, and the two failure
messages at concrete inputs. -/
theorem C7_witness :
    fetch_weather (.success (some (49, 7)))
        (.ok [⟨[⟨some "clear sky"⟩], some "21.5"⟩]) =
      [.text "Here\x27s the weather!",
       .markdown "*Weather:* Clear sky\n*Temperature:* 21.5¬∞C"] ∧
    fetch_weather (.success (some (49, 7))) (.ok []) =
      [.text "No weather data available."] ∧
    fetch_weather (.success (some (49, 7))) (.ok [⟨[], some "21.5"⟩]) =
      [.text "No weather description available."] := by
  have h := C7_first_entry_cases (.success (some (49, 7)))
    (round2 49, round2 7) rfl
  refine ⟨?_, h.1, h.2.1 ⟨[], some "21.5"⟩ [] rfl⟩
  rw [h.2.2.1 ⟨[⟨some "clear sky"⟩], some "21.5"⟩ [] ⟨some "clear sky"⟩ [] rfl]
  decide

/-- C10: when `save_location` appends, the string appended to the user's
locations list is the whitespace-stripped message text; the single geocoder
query of the run carries the original, unstripped message text; the run
depends on the resolver only through its answer for that unstripped text;
and the persisted store is the same for any resolver answer that is a match,
whatever coordinate it carries — the stored string is the user's own input,
never data returned by the geocoder. -/
theorem C10_strip_store_raw_query (u text : String)
    (resolve : String → GeoResponse) (store : Store) (lat lon : ℚ)
    (hres : resolve text = .success (some (lat, lon)))
    (hfresh : freshFor store u (strip text)) :
    (save_location u text resolve store).outcome = .added ∧
    locationsOf (save_location u text resolve store).store u =
      locationsOf store u ++ [strip text] ∧
    (save_location u text resolve store).trace.head? =
      some (.geocode text) ∧
    (∀ q, .geocode q ∈ (save_location u text resolve store).trace →
      q = text) ∧
    (∀ resolve2 : String → GeoResponse, resolve2 text = resolve text →
      save_location u text resolve2 store =
        save_location u text resolve store) ∧
    (∀ (resolve2 : String → GeoResponse) (lat2 lon2 : ℚ),
      resolve2 text = .success (some (lat2, lon2)) →
      (save_location u text resolve2 store).store =
        (save_location u text resolve store).store) := by
  obtain ⟨p, a, hout, hstore, htrace, _⟩ :=
    save_location_added_spec u text resolve store lat lon hres hfresh
  refine ⟨hout, locationsOf_save_self u text resolve store lat lon hres hfresh,
    ?_, ?_, ?_, ?_⟩
  · rw [htrace]; rfl
  · intro q hq
    rw [htrace] at hq
    simp at hq
    exact hq
  · intro resolve2 h2
    unfold save_location
    rw [h2]
  · intro resolve2 lat2 lon2 h2
    unfold save_location
    rw [h2, hres]
    rfl

/-- C10 witness: a concrete instantiation. -/
theorem C10_witness :
    (save_location "1" " Berlin " (fun _ => .success (some (49, 7)))
      []).outcome = .added ∧
    locationsOf (save_location "1" " Berlin "
        (fun _ => .success (some (49, 7))) []).store "1" =
      locationsOf [] "1" ++ [strip " Berlin "] ∧
    (save_location "1" " Berlin " (fun _ => .success (some (49, 7)))
        []).trace.head? = some (.geocode " Berlin ") := by
  have h := C10_strip_store_raw_query "1" " Berlin "
    (fun _ => .success (some (49, 7))) [] 49 7 rfl (by decide)
  exact ⟨h.1, h.2.1, h.2.2.1⟩

/-- C3: handling any single inbound event keeps the session step one of the
three defined states; free text consumed in either awaiting state clears the
step back to idle whatever the resolver, weather provider and store did; the
try-again-yes button sets `waiting_for_save_location`; and from idle the
only events that enter `waiting_for_save_location` are the set-location menu
button and the try-again-yes button. -/
theorem C3_session_steps (u : String) (e : Event)
    (resolve : String → GeoResponse) (wx : WeatherResult) (w : World)
    (hw : validStep w.state) :
    validStep (handle_event u e resolve wx w).world.state ∧
    (∀ t, e = .freeText t →
      w.state = some "waiting_for_weather_location" ∨
        w.state = some "waiting_for_save_location" →
      (handle_event u e resolve wx w).world.state = none) ∧
    (e = .tryAgainYes →
      (handle_event u e resolve wx w).world.state =
        some "waiting_for_save_location") ∧
    (w.state = none →
      ((handle_event u e resolve wx w).world.state =
          some "waiting_for_save_location" ↔
        e = .setLocation ∨ e = .tryAgainYes)) := by
  cases e with
  | freeText t =>
    by_cases h1 : w.state = some "waiting_for_weather_location"
    · simp [handle_event, h1, validStep]
    · by_cases h2 : w.state = some "waiting_for_save_location"
      · simp [handle_event, h1, h2, validStep]
      · have h0 : w.state = none := by
          rcases hw with h | h | h
          · exact h
          · exact absurd h h1
          · exact absurd h h2
        simp [handle_event, h1, h2, validStep, h0]
  | startCmd =>
    exact ⟨hw, by simp [handle_event], by simp [handle_event],
      fun h => by simp [handle_event, h]⟩
  | startYes =>
    exact ⟨hw, by simp [handle_event], by simp [handle_event],
      fun h => by simp [handle_event, h]⟩
  | startNo =>
    exact ⟨hw, by simp [handle_event], by simp [handle_event],
      fun h => by simp [handle_event, h]⟩
  | getWeather =>
    exact ⟨Or.inr (Or.inl (by simp [handle_event])), by simp [handle_event],
      by simp [handle_event], fun h => by simp [handle_event]⟩
  | setLocation =>
    exact ⟨Or.inr (Or.inr (by simp [handle_event])), by simp [handle_event],
      by simp [handle_event], fun h => by simp [handle_event]⟩
  | weatherAlerts =>
    exact ⟨hw, by simp [handle_event], by simp [handle_event],
      fun h => by simp [handle_event, h]⟩
  | tryAgainYes =>
    exact ⟨Or.inr (Or.inr (by simp [handle_event])), by simp [handle_event],
      by simp [handle_event], fun h => by simp [handle_event]⟩
  | tryAgainNo =>
    exact ⟨hw, by simp [handle_event], by simp [handle_event],
      fun h => by simp [handle_event, h]⟩

/-- C3 witness: a concrete instantiation — the try-again-yes button from
idle re-enters the awaiting-save state and that state is valid. -/
theorem C3_witness :
    validStep (handle_event "1" .tryAgainYes (fun _ => .error) .apiError
      ⟨none, []⟩).world.state ∧
    (handle_event "1" .tryAgainYes (fun _ => .error) .apiError
        ⟨none, []⟩).world.state = some "waiting_for_save_location" := by
  have h := C3_session_steps "1" .tryAgainYes (fun _ => .error) .apiError
    ⟨none, []⟩ (Or.inl rfl)
  exact ⟨h.1, h.2.2.1 rfl⟩

/-- C4: free text consumed in `waiting_for_save_location` whose resolution
fails leaves the persisted store untouched — the run performs no store read
or write (its effect trace is just the geocoder query) — sends exactly the
Yes/No retry prompt, and clears the step; subsequently pressing the No
button also leaves the store unchanged, sends a message, and the step stays
idle. -/
theorem C4_notfound_frame (u t : String) (resolve : String → GeoResponse)
    (wx : WeatherResult) (w : World)
    (hres : location_handler (resolve t) = none)
    (hstate : w.state = some "waiting_for_save_location") :
    (handle_event u (.freeText t) resolve wx w).world.store = w.store ∧
    (handle_event u (.freeText t) resolve wx w).world.state = none ∧
    (handle_event u (.freeText t) resolve wx w).msgs = [retryPromptMsg] ∧
    (save_location u t resolve w.store).trace = [.geocode t] ∧
    (handle_event u .tryAgainNo resolve wx
        (handle_event u (.freeText t) resolve wx w).world).world.store =
      w.store ∧
    (handle_event u .tryAgainNo resolve wx
        (handle_event u (.freeText t) resolve wx w).world).world.state =
      none ∧
    (handle_event u .tryAgainNo resolve wx
        (handle_event u (.freeText t) resolve wx w).world).msgs ≠ [] := by
  have hsave : save_location u t resolve w.store =
      { store := w.store, msgs := [retryPromptMsg], outcome := .retryPrompt,
        trace := [.geocode t] } := by
    unfold save_location
    rw [hres]
  have hne : w.state ≠ some "waiting_for_weather_location" := by
    rw [hstate]; decide
  simp [handle_event, hstate, hne, hsave]

/-- C4 witness: the spec scenario — `"Atlantis"` does not resolve. -/
theorem C4_witness :
    (handle_event "1" (.freeText "Atlantis") (fun _ => .success none)
        .apiError ⟨some "waiting_for_save_location", []⟩).world.store =
      ([] : Store) ∧
    (handle_event "1" (.freeText "Atlantis") (fun _ => .success none)
        .apiError ⟨some "waiting_for_save_location", []⟩).msgs =
      [retryPromptMsg] := by
  have h := C4_notfound_frame "1" "Atlantis" (fun _ => .success none)
    .apiError ⟨some "waiting_for_save_location", []⟩ rfl rfl
  exact ⟨h.1, h.2.2.1⟩

/-- C8: for every inbound event the handlers send at least one message, with
exactly one exception: free text consumed in `waiting_for_weather_location`
whose resolution fails produces no message at all, while the same failed
resolution in `waiting_for_save_location` does send one (the retry
prompt, covered by the right-to-left direction being restricted to the
weather path). -/
theorem C8_silence_iff (u : String) (e : Event)
    (resolve : String → GeoResponse) (wx : WeatherResult) (w : World) :
    (handle_event u e resolve wx w).msgs = [] ↔
      ∃ t, e = .freeText t ∧
        w.state = some "waiting_for_weather_location" ∧
        location_handler (resolve t) = none := by
  cases e with
  | freeText t =>
    by_cases h1 : w.state = some "waiting_for_weather_location"
    · simp [handle_event, h1, fetch_weather_nil_iff]
    · by_cases h2 : w.state = some "waiting_for_save_location"
      · simp [handle_event, h1, h2, save_location_msgs_ne_nil]
      · simp [handle_event, h1, h2]
  | startCmd => simp [handle_event]
  | startYes => simp [handle_event]
  | startNo => simp [handle_event]
  | getWeather => simp [handle_event]
  | setLocation => simp [handle_event]
  | weatherAlerts => simp [handle_event]
  | tryAgainYes => simp [handle_event]
  | tryAgainNo => simp [handle_event]

/-- C9 counterexample: there is no mutual exclusion in the code, and the
claim fails in the interleaving where both `save_location` calls perform
their `load_user_data()` before either performs its `save_user_data(...)`:
starting from an empty store, with distinct users `"1"` and `"2"` saving
resolvable locations `"Paris"` and `"Lagos"`, after both calls complete user
`"1"`'s location is gone — the second whole-file write overwrote the
first. -/
theorem C9_counterexample :
    (runSchedule
        (saveWriter "1" "Paris" (fun _ => .success (some (49, 7))))
        (saveWriter "2" "Lagos" (fun _ => .success (some (49, 7))))
        [.load1, .load2, .write1, .write2]
        ⟨[], none, none⟩).file.find "1" = none ∧
    locationsOf (runSchedule
        (saveWriter "1" "Paris" (fun _ => .success (some (49, 7))))
        (saveWriter "2" "Lagos" (fun _ => .success (some (49, 7))))
        [.load1, .load2, .write1, .write2]
        ⟨[], none, none⟩).file "2" = ["Lagos"] := by
  decide

/-- C9 (amended): the `load_user_data` / `save_user_data` cycle of
`save_location` runs under no lock.  When the two calls for distinct users
are serialized — either one's load-modify-save completing before the other's
load, in either order — both users' locations are present afterwards; in the
unserialized interleaving where both calls load before either writes, the
first writer's record is lost (see the counterexample). -/
theorem C9_serialized_saves (u1 u2 l1 l2 : String)
    (resolve : String → GeoResponse) (store : Store)
    (lat1 lon1 lat2 lon2 : ℚ)
    (hne : u1 ≠ u2)
    (h1 : resolve l1 = .success (some (lat1, lon1)))
    (h2 : resolve l2 = .success (some (lat2, lon2)))
    (hf1 : freshFor store u1 (strip l1))
    (hf2 : freshFor store u2 (strip l2)) :
    (strip l1 ∈ locationsOf (runSchedule (saveWriter u1 l1 resolve)
        (saveWriter u2 l2 resolve) [.load1, .write1, .load2, .write2]
        ⟨store, none, none⟩).file u1 ∧
      strip l2 ∈ locationsOf (runSchedule (saveWriter u1 l1 resolve)
        (saveWriter u2 l2 resolve) [.load1, .write1, .load2, .write2]
        ⟨store, none, none⟩).file u2) ∧
    (strip l1 ∈ locationsOf (runSchedule (saveWriter u1 l1 resolve)
        (saveWriter u2 l2 resolve) [.load2, .write2, .load1, .write1]
        ⟨store, none, none⟩).file u1 ∧
      strip l2 ∈ locationsOf (runSchedule (saveWriter u1 l1 resolve)
        (saveWriter u2 l2 resolve) [.load2, .write2, .load1, .write1]
        ⟨store, none, none⟩).file u2) := by
  have e1 : runSchedule (saveWriter u1 l1 resolve) (saveWriter u2 l2 resolve)
      [.load1, .write1, .load2, .write2] ⟨store, none, none⟩ =
      ⟨saveWriter u2 l2 resolve (saveWriter u1 l1 resolve store),
        some store, some (saveWriter u1 l1 resolve store)⟩ := rfl
  have e2 : runSchedule (saveWriter u1 l1 resolve) (saveWriter u2 l2 resolve)
      [.load2, .write2, .load1, .write1] ⟨store, none, none⟩ =
      ⟨saveWriter u1 l1 resolve (saveWriter u2 l2 resolve store),
        some (saveWriter u2 l2 resolve store), some store⟩ := rfl
  rw [e1, e2]
  unfold saveWriter
  constructor
  · constructor
    · rw [locationsOf_save_other u2 u1 l2 resolve _ hne]
      rw [locationsOf_save_self u1 l1 resolve store lat1 lon1 h1 hf1]
      simp
    · rw [locationsOf_save_self u2 l2 resolve _ lat2 lon2 h2
        (freshFor_save_other u1 u2 l1 (strip l2) resolve store
          (Ne.symm hne) hf2)]
      simp
  · constructor
    · rw [locationsOf_save_self u1 l1 resolve _ lat1 lon1 h1
        (freshFor_save_other u2 u1 l2 (strip l1) resolve store hne hf1)]
      simp
    · rw [locationsOf_save_other u1 u2 l1 resolve _ (Ne.symm hne)]
      rw [locationsOf_save_self u2 l2 resolve store lat2 lon2 h2 hf2]
      simp

/-- C9 witness: a concrete instantiation of the amended claim. -/
theorem C9_witness :
    strip "Paris" ∈ locationsOf (runSchedule
        (saveWriter "1" "Paris" (fun _ => .success (some (49, 7))))
        (saveWriter "2" "Lagos" (fun _ => .success (some (49, 7))))
        [.load1, .write1, .load2, .write2] ⟨[], none, none⟩).file "1" ∧
    strip "Lagos" ∈ locationsOf (runSchedule
        (saveWriter "1" "Paris" (fun _ => .success (some (49, 7))))
        (saveWriter "2" "Lagos" (fun _ => .success (some (49, 7))))
        [.load1, .write1, .load2, .write2] ⟨[], none, none⟩).file "2" := by
  have h := C9_serialized_saves "1" "2" "Paris" "Lagos"
    (fun _ => .success (some (49, 7))) [] 49 7 49 7 (by decide) rfl rfl
    (by decide) (by decide)
  exact h.1

end WeatherBot
